import Mathlib

/-!
Shallow embedding of the supply-chain core of the walmart-sparkathon-agent
repository (`crew.py` and `server.py`).

Modelling conventions: Python floats are rationals (`ℚ`), Python dicts that
carry fixed keys are structures, in-place mutation of a dict/dataclass in a
list is functional replacement in a `List`, the great-circle distance
`geopy.distance.geodesic(..).miles` is an abstract parameter
`dist : ℚ × ℚ → ℚ × ℚ → ℚ`, and `random.uniform` draws are explicit
arguments of the tick function.
-/

namespace SupplyChain

/-- `RouteWaypoint` dataclass of `crew.py`. -/
structure RouteWaypoint where
  lat : ℚ
  lng : ℚ
  type : String
  name : String
  action : String
deriving DecidableEq, Repr, Inhabited

/-- `Truck` dataclass of `crew.py`. -/
structure Truck where
  id : String
  driver : String
  capacity : ℕ
  current_load : ℕ
  lat : ℚ
  lng : ℚ
  status : String
  route : List RouteWaypoint
  efficiency : ℚ
  fuel_saved : ℚ := 0
  co2_reduced : ℚ := 0
  completed_stops : ℕ := 0
  total_stops : ℕ := 0
deriving DecidableEq, Repr, Inhabited

/-- `Warehouse` dataclass of `crew.py` (inventory omitted: no claim here
reads it; only `id` is consulted by `optimize_route`). -/
structure Warehouse where
  id : ℤ
  name : String
  lat : ℚ
  lng : ℚ
  type : String
  capacity : ℕ := 1000
deriving DecidableEq, Repr, Inhabited

/-- Efficiency formula of `RouteOptimizationTool._run` (crew.py line 133):
`max(85, min(99, 100 - (total_distance / 10)))`. -/
def efficiencyScore (total_distance : ℚ) : ℚ :=
  max 85 (min 99 (100 - total_distance / 10))

/-- The clamp the spec describes: `clamp(x, lo, hi) = max(lo, min(hi, x))`. -/
def clampSpec (x lo hi : ℚ) : ℚ :=
  max lo (min hi x)

/-- Python `round` on a float: round half to even. -/
def pyRound (q : ℚ) : ℤ :=
  if Int.fract q < 1/2 then ⌊q⌋
  else if Int.fract q > 1/2 then ⌊q⌋ + 1
  else if ⌊q⌋ % 2 = 0 then ⌊q⌋ else ⌊q⌋ + 1

/-- One entry of the `forecasts` dict built by `DemandForecastingTool._run`. -/
structure ProductForecast where
  predicted_demand : ℚ
  confidence : ℚ
  trend : String
deriving DecidableEq, Repr

/-- Per-product body of `DemandForecastingTool._run` (crew.py lines 214-231):
`history[-3:]` is `drop (length - 3)`, `history[-1]` is the last element,
`history[-3]` is the element at index `length - 3`. -/
def forecastProduct (history : List ℚ) : ProductForecast :=
  if 3 ≤ history.length then
    let recent_avg := (history.drop (history.length - 3)).sum / 3
    let trend := (history.getLastD 0 - history.getD (history.length - 3) 0) / 2
    let forecast := max 0 (recent_avg + trend)
    { predicted_demand := (pyRound forecast : ℤ)
      confidence := 85/100
      trend := if trend > 0 then "increasing"
               else if trend < 0 then "decreasing" else "stable" }
  else
    { predicted_demand := history.getLastD 0
      confidence := 1/2
      trend := "insufficient_data" }

/-- A websocket handle as the broadcaster sees it: an identity plus whether
`send_text` raises on it during the current tick. -/
structure Conn where
  id : ℕ
  fails : Bool
deriving DecidableEq, Repr

/-- `ConnectionManager.broadcast` (server.py lines 72-78) iterates over
`self.active_connections` by hidden index while `list.remove` shifts the
elements: fetch element `i`; on a send failure remove it (first occurrence)
and continue from index `i + 1` of the shrunken list.  Returns the final
connection list and the ids that received the message. -/
def broadcastLoop (l : List Conn) (i : ℕ) (delivered : List ℕ) : List Conn × List ℕ :=
  if h : i < l.length then
    let c := l.get ⟨i, h⟩
    if c.fails then
      broadcastLoop (l.erase c) (i + 1) delivered
    else
      broadcastLoop l (i + 1) (delivered ++ [c.id])
  else
    (l, delivered)
termination_by l.length - i
decreasing_by
  · have hc : l.get ⟨i, h⟩ ∈ l := l.get_mem _ _
    have := List.length_erase_of_mem hc
    omega
  · omega

/-- `ConnectionManager.broadcast` on the list of active connections. -/
def ConnectionManager.broadcast (conns : List Conn) : List Conn × List ℕ :=
  broadcastLoop conns 0 []

/-- A warehouse entry as handed to `RouteOptimizationTool._run`: a dict whose
`lat`/`lng` keys may be absent (`warehouse['lat']` then raises `KeyError`,
caught by the blanket handler which returns a failure dict). -/
structure WarehouseIn where
  lat : Option ℚ
  lng : Option ℚ
  name : String
deriving DecidableEq, Repr

/-- A delivery-request entry handed to `RouteOptimizationTool._run`;
`quantity` is read with `.get('quantity', 'items')`, which never fails. -/
structure DeliveryIn where
  lat : Option ℚ
  lng : Option ℚ
  name : String
  quantity : Option ℕ
deriving DecidableEq, Repr

/-- Python dict subscript: the value when the key is present, a `KeyError`
carrying the key name otherwise. -/
def getKey (o : Option ℚ) (k : String) : Except String ℚ :=
  match o with
  | some v => Except.ok v
  | none => Except.error k

/-- Pickup waypoint built from a warehouse entry (crew.py lines 101-108). -/
def pickupWaypoint (w : WarehouseIn) : Except String RouteWaypoint := do
  let la ← getKey w.lat "lat"
  let lg ← getKey w.lng "lng"
  pure { lat := la, lng := lg, type := "pickup", name := w.name,
         action := "Pickup inventory from " ++ w.name }

/-- Delivery waypoint built from a delivery entry (crew.py lines 111-118). -/
def deliveryWaypoint (d : DeliveryIn) : Except String RouteWaypoint := do
  let la ← getKey d.lat "lat"
  let lg ← getKey d.lng "lng"
  pure { lat := la, lng := lg, type := "delivery", name := d.name,
         action := "Deliver " ++ (match d.quantity with
           | some q => toString q
           | none => "items") ++ " to " ++ d.name }

/-- The `route_waypoints.append(...)` loop: build each waypoint in order,
appending to the accumulator, propagating the first `KeyError`. -/
def appendWaypoints {α : Type} (mk : α → Except String RouteWaypoint) :
    List α → List RouteWaypoint → Except String (List RouteWaypoint)
  | [], acc => Except.ok acc
  | x :: rest, acc =>
      match mk x with
      | Except.error e => Except.error e
      | Except.ok wp => appendWaypoints mk rest (acc ++ [wp])

/-- The distance loop of crew.py lines 121-126:
`for i in range(len(route_waypoints) - 1): total += geodesic(wp[i], wp[i+1])`. -/
def totalDistanceLoop (dist : ℚ × ℚ → ℚ × ℚ → ℚ) (wps : List RouteWaypoint) : ℚ :=
  (List.range (wps.length - 1)).foldl
    (fun acc i =>
      acc + dist ((wps.getD i default).lat, (wps.getD i default).lng)
        ((wps.getD (i + 1) default).lat, (wps.getD (i + 1) default).lng)) 0

/-- `estimated_time` string of crew.py lines 129-130 (`int` truncation on a
non-negative float is the floor). -/
def estimatedTime (total_distance : ℚ) : String :=
  let estimated_hours := total_distance / 45
  toString ⌊estimated_hours⌋ ++ "h " ++
    toString ⌊(estimated_hours - ⌊estimated_hours⌋) * 60⌋ ++ "m"

/-- `OptimizedRoute` dataclass of `crew.py` (the `id` field, derived from
`time.time()`, is not modelled). -/
structure OptimizedRoute where
  name : String
  waypoints : List RouteWaypoint
  distance : ℚ
  estimated_time : String
  efficiency : ℚ
  priority : String
deriving DecidableEq, Repr, Inhabited

/-- `RouteOptimizationTool._run` (crew.py lines 94-155), with the geodesic
distance abstracted as `dist`; the `truck_capacity` argument is accepted and,
as in the source, never used.  `Except.error` models the caught exception
turned into `{"success": False, "error": str(e)}`. -/
def RouteOptimizationTool.run (dist : ℚ × ℚ → ℚ × ℚ → ℚ) (truck_capacity : ℕ)
    (warehouses : List WarehouseIn) (deliveries : List DeliveryIn) :
    Except String OptimizedRoute :=
  let _ := truck_capacity
  match appendWaypoints pickupWaypoint warehouses [] with
  | Except.error e => Except.error e
  | Except.ok wps1 =>
      match appendWaypoints deliveryWaypoint deliveries wps1 with
      | Except.error e => Except.error e
      | Except.ok route_waypoints =>
          let total_distance := totalDistanceLoop dist route_waypoints
          Except.ok {
            name := "Optimized Route - " ++ toString route_waypoints.length ++ " stops"
            waypoints := route_waypoints
            distance := total_distance
            estimated_time := estimatedTime total_distance
            efficiency := efficiencyScore total_distance
            priority := if deliveries.length > 3 then "high" else "medium" }

/-- `True` (as a `Bool`) when the tool reported `"success": True`. -/
def exceptOk {ε α : Type} : Except ε α → Bool
  | Except.ok _ => true
  | Except.error _ => false

/-- Both coordinate keys present on a warehouse entry. -/
def hasCoordsW (w : WarehouseIn) : Bool := w.lat.isSome && w.lng.isSome

/-- Both coordinate keys present on a delivery entry. -/
def hasCoordsD (d : DeliveryIn) : Bool := d.lat.isSome && d.lng.isSome

/-- Total variant of `pickupWaypoint` for fully-coordinated entries. -/
def pickupWpT (w : WarehouseIn) : RouteWaypoint :=
  { lat := w.lat.getD 0, lng := w.lng.getD 0, type := "pickup", name := w.name,
    action := "Pickup inventory from " ++ w.name }

/-- Total variant of `deliveryWaypoint` for fully-coordinated entries. -/
def deliveryWpT (d : DeliveryIn) : RouteWaypoint :=
  { lat := d.lat.getD 0, lng := d.lng.getD 0, type := "delivery", name := d.name,
    action := "Deliver " ++ (match d.quantity with
      | some q => toString q
      | none => "items") ++ " to " ++ d.name }

/-- Sum of consecutive distances along a fixed waypoint order (the spec's
reading of the total-distance computation). -/
def pathDistance (dist : ℚ × ℚ → ℚ × ℚ → ℚ) : List RouteWaypoint → ℚ
  | a :: b :: rest => dist (a.lat, a.lng) (b.lat, b.lng) + pathDistance dist (b :: rest)
  | _ => 0

/-- Python `max(trucks, key=...)` body: fold that replaces the champion only
on a strictly larger key, so ties keep the first-seen element. -/
def pyMaxLoop (best : Truck) (rest : List Truck) : Truck :=
  rest.foldl (fun b x => if x.efficiency > b.efficiency then x else b) best

/-- `max(available_trucks, key=lambda t: t.get('efficiency', 0))`;
`none` when the list is empty (Python would raise `ValueError`). -/
def pyMaxEff : List Truck → Option Truck
  | [] => none
  | t :: ts => some (pyMaxLoop t ts)

/-- In-place mutation of a list element, functionally: replace the first
occurrence of `a` by `b`. -/
def replaceFirst : List Truck → Truck → Truck → List Truck
  | [], _, _ => []
  | x :: xs, a, b => if x = a then b :: xs else x :: replaceFirst xs a b

/-- Result dict of `TruckDispatchTool._run`: the failure dict carries the
error and recommendation strings, the success dict the dispatched truck's id
and driver and the route name. -/
inductive DispatchResult where
  | failure (error recommendation : String)
  | success (dispatched_truck driver route_name : String)
deriving DecidableEq, Repr

/-- `TruckDispatchTool._run` (crew.py lines 247-275): filter the idle trucks,
take the Python `max` by efficiency, mutate that truck in place.  Returns the
result dict together with the (possibly mutated) truck list. -/
def TruckDispatchTool.run (trucks : List Truck) (route : OptimizedRoute) :
    DispatchResult × List Truck :=
  let available_trucks := trucks.filter (fun t => t.status = "idle")
  match pyMaxEff available_trucks with
  | none =>
      (DispatchResult.failure "No available trucks for dispatch"
        "Wait for trucks to complete current routes", trucks)
  | some best_truck =>
      let updated := { best_truck with
        status := "en-route"
        route := route.waypoints
        total_stops := route.waypoints.length }
      (DispatchResult.success best_truck.id best_truck.driver route.name,
        replaceFirst trucks best_truck updated)

/-- `WalmartSupplyChainCrew._initialize_trucks` (crew.py lines 366-373). -/
def initialTrucks : List Truck :=
  [ { id := "T001", driver := "John Smith", capacity := 100, current_load := 0,
      lat := 32.7767, lng := -96.7970, status := "idle", route := [], efficiency := 98.5 },
    { id := "T002", driver := "Sarah Johnson", capacity := 120, current_load := 0,
      lat := 29.7604, lng := -95.3698, status := "idle", route := [], efficiency := 97.2 },
    { id := "T003", driver := "Mike Wilson", capacity := 110, current_load := 0,
      lat := 30.2672, lng := -97.7431, status := "idle", route := [], efficiency := 96.8 },
    { id := "T004", driver := "Lisa Brown", capacity := 95, current_load := 0,
      lat := 32.7555, lng := -97.3308, status := "idle", route := [], efficiency := 98.0 } ]

/-- `performance_metrics` dict of `WalmartSupplyChainCrew.__init__`. -/
structure PerformanceMetrics where
  total_distance_saved : ℚ
  fuel_saved : ℚ
  co2_reduced : ℚ
  efficiency_score : ℚ
  active_routes : ℕ
deriving DecidableEq, Repr

/-- All-zero metrics set up in `WalmartSupplyChainCrew.__init__`. -/
def initialMetrics : PerformanceMetrics := ⟨0, 0, 0, 0, 0⟩

/-- State effect of `WalmartSupplyChainCrew.optimize_route` (crew.py lines
439-486) on the metrics: the LLM kickoff is opaque text with no state
effect; an unknown origin warehouse returns failure before any mutation. -/
def optimize_route (warehouses : List Warehouse) (m : PerformanceMetrics)
    (origin_warehouse_id : ℤ) : Bool × PerformanceMetrics :=
  match warehouses.find? (fun w => w.id = origin_warehouse_id) with
  | none => (false, m)
  | some _ =>
      (true, { m with active_routes := m.active_routes + 1,
                      efficiency_score := min 99 (m.efficiency_score + 1/2) })

/-- `/api/dispatch-truck` handler (server.py lines 306-343): find the truck
by id, reject when missing or not idle, otherwise set only its status to
`en-route` — the route list is left untouched. -/
def dispatch_truck (trucks : List Truck) (truck_id : String) :
    Except String (List Truck) :=
  match trucks.find? (fun t => t.id = truck_id) with
  | none => Except.error "Truck not found"
  | some truck =>
      if truck.status ≠ "idle" then Except.error "Truck is not available"
      else Except.ok (replaceFirst trucks truck { truck with status := "en-route" })

/-- The per-truck random draws of one telemetry tick
(`random.uniform(-0.001, 0.001)` twice, `random.uniform(0, 0.1)`,
`random.uniform(0, 0.3)`). -/
structure TruckJitter where
  dlat : ℚ
  dlng : ℚ
  dfuel : ℚ
  dco2 : ℚ
deriving DecidableEq, Repr

/-- Per-truck body of `simulate_real_time_updates` (server.py lines 426-431):
only `en-route` trucks are perturbed. -/
def tickTruck (j : TruckJitter) (t : Truck) : Truck :=
  if t.status = "en-route" then
    { t with lat := t.lat + j.dlat, lng := t.lng + j.dlng,
             fuel_saved := t.fuel_saved + j.dfuel,
             co2_reduced := t.co2_reduced + j.dco2 }
  else t

/-- The `for truck in trucks` loop of the tick, each truck with its own
draws. -/
def tickTrucks (jitter : ℕ → TruckJitter) : ℕ → List Truck → List Truck
  | _, [] => []
  | i, t :: ts => tickTruck (jitter i) t :: tickTrucks jitter (i + 1) ts

/-- Mutable state touched by the background tick. -/
structure SystemState where
  trucks : List Truck
  performance_metrics : PerformanceMetrics
deriving DecidableEq, Repr

/-- One iteration of `simulate_real_time_updates` (server.py lines 419-435):
nothing is mutated unless at least one observer is connected; otherwise each
`en-route` truck is jittered and the global `efficiency_score` takes a
bounded random step clamped at 99. -/
def simulateTick (conns : List Conn) (jitter : ℕ → TruckJitter) (deff : ℚ)
    (st : SystemState) : SystemState :=
  if conns.length > 0 then
    { trucks := tickTrucks jitter 0 st.trucks
      performance_metrics := { st.performance_metrics with
        efficiency_score :=
          min 99 (st.performance_metrics.efficiency_score + deff) } }
  else st

/-- The spec's truck invariant: `status == idle` ⟺ route is empty. -/
def truckInv (t : Truck) : Prop := t.status = "idle" ↔ t.route = []

instance (t : Truck) : Decidable (truckInv t) := by
  unfold truckInv
  infer_instance

/-- `WalmartSupplyChainCrew._initialize_warehouses` (crew.py lines 351-364);
the inventory dicts are not modelled (no claim reads them). -/
def initialWarehouses : List Warehouse :=
  [ { id := 1, name := "Dallas DC", lat := 32.7767, lng := -96.7970, type := "main", capacity := 2000 },
    { id := 2, name := "Houston DC", lat := 29.7604, lng := -95.3698, type := "main", capacity := 2000 },
    { id := 3, name := "Austin DC", lat := 30.2672, lng := -97.7431, type := "main", capacity := 1500 },
    { id := 4, name := "Fort Worth Hub", lat := 32.7555, lng := -97.3308, type := "pickup", capacity := 800 },
    { id := 5, name := "San Antonio Hub", lat := 29.4241, lng := -98.4936, type := "delivery", capacity := 600 } ]

/-- A one-stop route used to exercise the dispatch tool on concrete input. -/
def sampleRoute : OptimizedRoute :=
  { name := "Optimized Route - 1 stops"
    waypoints := [{ lat := 33, lng := -96, type := "delivery", name := "Plano Store",
                    action := "Deliver 45 to Plano Store" }]
    distance := 0
    estimated_time := "0h 0m"
    efficiency := 99
    priority := "medium" }

/-- What truck `T001` looks like after `/api/dispatch-truck`: status flipped
to `en-route`, route still empty. -/
def dispatchedT001 : Truck :=
  { id := "T001", driver := "John Smith", capacity := 100, current_load := 0,
    lat := 32.7767, lng := -96.7970, status := "en-route", route := [],
    efficiency := 98.5 }

/-- What one tick guarantees, independently of the random draws: no
non-`en-route` truck is touched, cumulative fuel/CO2 counters never
decrease, and the global efficiency score ends at most 99. -/
def tickSpec (st st' : SystemState) : Prop :=
  List.Forall₂ (fun t t' =>
    (t.status ≠ "en-route" → t' = t) ∧
    t.fuel_saved ≤ t'.fuel_saved ∧ t.co2_reduced ≤ t'.co2_reduced)
    st.trucks st'.trucks ∧
  st'.performance_metrics.efficiency_score ≤ 99

lemma exceptOk_pickupWaypoint (w : WarehouseIn) :
    exceptOk (pickupWaypoint w) = hasCoordsW w := by
  obtain ⟨la, lg, name⟩ := w
  cases la <;> cases lg <;> rfl

lemma exceptOk_deliveryWaypoint (d : DeliveryIn) :
    exceptOk (deliveryWaypoint d) = hasCoordsD d := by
  obtain ⟨la, lg, name, q⟩ := d
  cases la <;> cases lg <;> rfl

lemma pickupWaypoint_of_coords (w : WarehouseIn) (h : hasCoordsW w = true) :
    pickupWaypoint w = Except.ok (pickupWpT w) := by
  obtain ⟨la, lg, name⟩ := w
  cases la <;> cases lg <;> first | rfl | simp [hasCoordsW] at h

lemma deliveryWaypoint_of_coords (d : DeliveryIn) (h : hasCoordsD d = true) :
    deliveryWaypoint d = Except.ok (deliveryWpT d) := by
  obtain ⟨la, lg, name, q⟩ := d
  cases la <;> cases lg <;> first | rfl | simp [hasCoordsD] at h

lemma appendWaypoints_exceptOk {α : Type} (mk : α → Except String RouteWaypoint)
    (p : α → Bool) (hp : ∀ x, exceptOk (mk x) = p x) :
    ∀ (xs : List α) (acc : List RouteWaypoint),
      exceptOk (appendWaypoints mk xs acc) = xs.all p
  | [], acc => by simp [appendWaypoints, exceptOk]
  | x :: rest, acc => by
      have hx := hp x
      cases hmx : mk x with
      | error e =>
          rw [hmx] at hx
          simp [appendWaypoints, hmx, exceptOk, ← hx]
      | ok wp =>
          rw [hmx] at hx
          have hrec := appendWaypoints_exceptOk mk p hp rest (acc ++ [wp])
          simp only [appendWaypoints, hmx]
          rw [hrec]
          simp [List.all_cons, ← hx, exceptOk]

lemma appendWaypoints_ok {α : Type} (mk : α → Except String RouteWaypoint)
    (mkT : α → RouteWaypoint) :
    ∀ (xs : List α), (∀ x ∈ xs, mk x = Except.ok (mkT x)) →
    ∀ (acc : List RouteWaypoint),
      appendWaypoints mk xs acc = Except.ok (acc ++ xs.map mkT)
  | [], _, acc => by simp [appendWaypoints]
  | x :: rest, hmk, acc => by
      have hx : mk x = Except.ok (mkT x) := hmk x (by simp)
      have hrest := appendWaypoints_ok mk mkT rest
        (fun y hy => hmk y (by simp [hy])) (acc ++ [mkT x])
      simp [appendWaypoints, hx, hrest]

lemma foldl_add_g (g : ℕ → ℚ) :
    ∀ (l : List ℕ) (c : ℚ),
      l.foldl (fun acc i => acc + g i) c = c + (l.map g).sum
  | [], c => by simp
  | i :: l, c => by
      simp [List.foldl_cons, foldl_add_g g l (c + g i), add_assoc]

lemma totalDistanceLoop_eq_pathDistance (dist : ℚ × ℚ → ℚ × ℚ → ℚ) :
    ∀ wps, totalDistanceLoop dist wps = pathDistance dist wps := by
  intro wps
  induction wps with
  | nil => simp [totalDistanceLoop, pathDistance]
  | cons a tail ih =>
    cases tail with
    | nil => simp [totalDistanceLoop, pathDistance]
    | cons b rest =>
      have hlen : (a :: b :: rest).length - 1 = rest.length + 1 := by simp
      rw [totalDistanceLoop, hlen, foldl_add_g, List.range_succ_eq_map,
        List.map_cons, List.map_map, List.sum_cons]
      rw [totalDistanceLoop, foldl_add_g] at ih
      have hshift :
          (List.map
            ((fun i => dist (((a :: b :: rest).getD i default).lat, ((a :: b :: rest).getD i default).lng)
              (((a :: b :: rest).getD (i + 1) default).lat, ((a :: b :: rest).getD (i + 1) default).lng)) ∘ Nat.succ)
            (List.range rest.length)) =
          (List.map
            (fun i => dist (((b :: rest).getD i default).lat, ((b :: rest).getD i default).lng)
              (((b :: rest).getD (i + 1) default).lat, ((b :: rest).getD (i + 1) default).lng))
            (List.range rest.length)) := by
        refine List.map_congr_left ?_
        intro i _
        simp [Function.comp, Nat.succ_eq_add_one, List.getD_cons_succ]
      rw [hshift]
      have hlen2 : (b :: rest).length - 1 = rest.length := by simp
      rw [hlen2] at ih
      rw [pathDistance]
      simp only [List.getD_cons_zero, List.getD_cons_succ] at *
      rw [← ih]
      ring

lemma pyRound_nonneg (q : ℚ) (h : 0 ≤ q) : 0 ≤ pyRound q := by
  have h0 : (0 : ℤ) ≤ ⌊q⌋ := Int.floor_nonneg.mpr h
  unfold pyRound
  split_ifs <;> omega

/-- C4 (amended): the route planner fails exactly when some warehouse or
delivery entry is missing a coordinate; every fully-coordinated input of any
size succeeds — including an empty delivery-request list, which, contrary to
the claim, is not rejected. -/
theorem routeOpt_ok_iff_coords (dist : ℚ × ℚ → ℚ × ℚ → ℚ) (truck_capacity : ℕ)
    (warehouses : List WarehouseIn) (deliveries : List DeliveryIn) :
    exceptOk (RouteOptimizationTool.run dist truck_capacity warehouses deliveries) =
      (warehouses.all hasCoordsW && deliveries.all hasCoordsD) := by
  have h1 := appendWaypoints_exceptOk pickupWaypoint hasCoordsW
    exceptOk_pickupWaypoint warehouses []
  cases hw : appendWaypoints pickupWaypoint warehouses [] with
  | error e =>
      rw [hw] at h1
      simp only [exceptOk] at h1
      simp [RouteOptimizationTool.run, hw, exceptOk, ← h1]
  | ok wps1 =>
      rw [hw] at h1
      simp only [exceptOk] at h1
      have h2 := appendWaypoints_exceptOk deliveryWaypoint hasCoordsD
        exceptOk_deliveryWaypoint deliveries wps1
      cases hd : appendWaypoints deliveryWaypoint deliveries wps1 with
      | error e =>
          rw [hd] at h2
          simp only [exceptOk] at h2
          simp [RouteOptimizationTool.run, hw, hd, exceptOk, ← h1, ← h2]
      | ok wps =>
          rw [hd] at h2
          simp only [exceptOk] at h2
          simp [RouteOptimizationTool.run, hw, hd, exceptOk, ← h1, ← h2]

/-- C4 counterexample: a fully-coordinated warehouse with an *empty*
delivery-request list makes the planner succeed, whereas the claim demands a
validation failure whenever the delivery-request list is empty. -/
theorem routeOpt_empty_deliveries_succeeds :
    exceptOk (RouteOptimizationTool.run (fun _ _ => 0) 100
      [{ lat := some 32, lng := some (-96), name := "Dallas DC" }] []) = true := rfl

/-- C5: the planner never reorders — the waypoint list is one pickup per
warehouse in caller-supplied order followed by one delivery per request in
caller-supplied order, and the reported distance is the sum of consecutive
`dist` values along that fixed order. -/
theorem routeOpt_waypoints_in_order (dist : ℚ × ℚ → ℚ × ℚ → ℚ)
    (truck_capacity : ℕ) (warehouses : List WarehouseIn)
    (deliveries : List DeliveryIn)
    (hw : warehouses.all hasCoordsW = true)
    (hd : deliveries.all hasCoordsD = true) :
    ∃ r, RouteOptimizationTool.run dist truck_capacity warehouses deliveries =
        Except.ok r ∧
      r.waypoints = warehouses.map pickupWpT ++ deliveries.map deliveryWpT ∧
      r.distance =
        pathDistance dist (warehouses.map pickupWpT ++ deliveries.map deliveryWpT) := by
  rw [List.all_eq_true] at hw hd
  have h1 : appendWaypoints pickupWaypoint warehouses [] =
      Except.ok ([] ++ warehouses.map pickupWpT) :=
    appendWaypoints_ok pickupWaypoint pickupWpT warehouses
      (fun x hx => pickupWaypoint_of_coords x (hw x hx)) []
  rw [List.nil_append] at h1
  have h2 : appendWaypoints deliveryWaypoint deliveries (warehouses.map pickupWpT) =
      Except.ok (warehouses.map pickupWpT ++ deliveries.map deliveryWpT) :=
    appendWaypoints_ok deliveryWaypoint deliveryWpT deliveries
      (fun x hx => deliveryWaypoint_of_coords x (hd x hx)) _
  unfold RouteOptimizationTool.run
  simp only [h1, h2]
  exact ⟨_, rfl, rfl, totalDistanceLoop_eq_pathDistance dist _⟩

/-- C3 (amended): the route efficiency equals `clamp(100 - d/10, 85, 99)`
and therefore lies in `[85, 99]`; distance 0 gives 99; every distance
`≥ 150` (not 140, as claimed) gives 85. -/
theorem efficiencyScore_clamped (d : ℚ) (hd : 0 ≤ d) :
    efficiencyScore d = clampSpec (100 - d / 10) 85 99 ∧
    85 ≤ efficiencyScore d ∧ efficiencyScore d ≤ 99 ∧
    (d = 0 → efficiencyScore d = 99) ∧
    (150 ≤ d → efficiencyScore d = 85) := by
  refine ⟨rfl, le_max_left _ _, ?_, ?_, ?_⟩
  · exact max_le (by norm_num) (min_le_left _ _)
  · intro h
    subst h
    norm_num [efficiencyScore]
  · intro h
    have hx : 100 - d / 10 ≤ 85 := by linarith
    unfold efficiencyScore
    rw [min_eq_right (by linarith), max_eq_left hx]

/-- C3 witness: instantiated at distance 150. -/
theorem efficiencyScore_clamped_witness :
    (0 : ℚ) ≤ 150 ∧
    (efficiencyScore 150 = clampSpec (100 - 150 / 10) 85 99 ∧
     85 ≤ efficiencyScore 150 ∧ efficiencyScore 150 ≤ 99 ∧
     ((150 : ℚ) = 0 → efficiencyScore 150 = 99) ∧
     ((150 : ℚ) ≤ 150 → efficiencyScore 150 = 85)) :=
  ⟨by norm_num, efficiencyScore_clamped 150 (by norm_num)⟩

/-- C3 counterexample: at distance 140 the efficiency is 86, not the claimed
85 — the lower clamp only engages from distance 150 on. -/
theorem efficiencyScore_at_140 :
    efficiencyScore 140 = 86 ∧ (86 : ℚ) ≠ 85 := by
  constructor
  · norm_num [efficiencyScore]
  · norm_num

/-- C6 (amended): with at least three observations the forecast is
`round(max(0, avg(last 3) + trend))` with `trend = (newest − third-newest)/2`,
confidence 0.85 and the in/de/stable trend label, and the prediction is
clamped to be non-negative; with fewer than three observations the raw last
observation (0 when empty) is returned — *without* clamping — with
confidence 0.5 and label `insufficient_data`. -/
theorem forecastProduct_spec (history : List ℚ) :
    (∀ pre h1 h2 h3, history = pre ++ [h1, h2, h3] →
      forecastProduct history =
        { predicted_demand := (pyRound (max 0 ((h1 + h2 + h3) / 3 + (h3 - h1) / 2)) : ℤ)
          confidence := 85/100
          trend := if (h3 - h1) / 2 > 0 then "increasing"
                   else if (h3 - h1) / 2 < 0 then "decreasing" else "stable" } ∧
      0 ≤ (forecastProduct history).predicted_demand) ∧
    (history.length < 3 →
      forecastProduct history =
        { predicted_demand := history.getLastD 0
          confidence := 1/2
          trend := "insufficient_data" }) := by
  constructor
  · rintro pre h1 h2 h3 rfl
    have hlen : (pre ++ [h1, h2, h3]).length = pre.length + 3 := by simp
    have hge : 3 ≤ (pre ++ [h1, h2, h3]).length := by omega
    have hdrop : (pre ++ [h1, h2, h3]).drop ((pre ++ [h1, h2, h3]).length - 3) =
        [h1, h2, h3] := by
      rw [hlen]
      simp [List.drop_left]
    have hlast : (pre ++ [h1, h2, h3]).getLastD 0 = h3 := by
      rw [show pre ++ [h1, h2, h3] = (pre ++ [h1, h2]) ++ [h3] by simp]
      exact List.getLastD_concat _ _ _
    have hget : (pre ++ [h1, h2, h3]).getD ((pre ++ [h1, h2, h3]).length - 3) 0 = h1 := by
      rw [hlen]
      have h33 : pre.length + 3 - 3 = pre.length := by omega
      rw [h33]
      induction pre with
      | nil => rfl
      | cons a l ih => simpa using ih
    have heq : forecastProduct (pre ++ [h1, h2, h3]) =
        { predicted_demand := (pyRound (max 0 ((h1 + h2 + h3) / 3 + (h3 - h1) / 2)) : ℤ)
          confidence := 85/100
          trend := if (h3 - h1) / 2 > 0 then "increasing"
                   else if (h3 - h1) / 2 < 0 then "decreasing" else "stable" } := by
      rw [forecastProduct, if_pos hge, hdrop, hlast, hget]
      have hsum : ([h1, h2, h3] : List ℚ).sum / 3 = (h1 + h2 + h3) / 3 := by
        simp [List.sum_cons]
        ring
      rw [hsum]
    refine ⟨heq, ?_⟩
    rw [heq]
    show (0 : ℚ) ≤ ((pyRound (max 0 ((h1 + h2 + h3) / 3 + (h3 - h1) / 2)) : ℤ) : ℚ)
    exact_mod_cast pyRound_nonneg _ (le_max_left _ _)
  · intro hlt
    rw [forecastProduct, if_neg (by omega)]

/-- C6 witness: the spec's own example history `[120,140,160,180,200]` —
recent average 180, trend 20, prediction 200, confidence 0.85, label
`increasing` — plus the short-history case `[50]`. -/
theorem forecastProduct_spec_witness :
    (([120, 140, 160, 180, 200] : List ℚ) = [120, 140] ++ [160, 180, 200]) ∧
    forecastProduct [120, 140, 160, 180, 200] =
      { predicted_demand := 200, confidence := 85/100, trend := "increasing" } ∧
    (([50] : List ℚ).length < 3) ∧
    forecastProduct [50] =
      { predicted_demand := 50, confidence := 1/2, trend := "insufficient_data" } := by
  refine ⟨rfl, ?_, by norm_num, ?_⟩
  · have h := (forecastProduct_spec [120, 140, 160, 180, 200]).1
      [120, 140] 160 180 200 rfl
    rw [h.1]
    norm_num [pyRound, Int.fract]
  · have h := (forecastProduct_spec [50]).2 (by norm_num)
    rw [h]
    rfl

/-- C6 counterexample: a single negative observation is returned unclamped —
`forecastProduct [-1]` predicts −1, violating the claim that negative
predictions are clamped to 0. -/
theorem forecastProduct_negative_unclamped :
    forecastProduct [-1] =
      { predicted_demand := -1, confidence := 1/2, trend := "insufficient_data" } ∧
    (forecastProduct [-1]).predicted_demand < 0 := by
  constructor <;> norm_num [forecastProduct]

/-- C1: with subscribers `[A, B]` where delivery to `A` raises and delivery
to `B` would succeed, `broadcast` removes `A` but — because `list.remove`
shifts the hidden iteration index — skips `B`: `B` stays subscribed yet the
delivered set is empty for this tick, contradicting the claim that every
other currently subscribed observer still receives the payload. -/
theorem broadcast_failure_skips_next_subscriber :
    ConnectionManager.broadcast [⟨0, true⟩, ⟨1, false⟩] = ([⟨1, false⟩], []) := by
  simp [ConnectionManager.broadcast, broadcastLoop]

lemma pyMaxLoop_spec (l : List Truck) :
    ∀ b : Truck,
      pyMaxLoop b l ∈ b :: l ∧
      (∀ x ∈ b :: l, x.efficiency ≤ (pyMaxLoop b l).efficiency) ∧
      ∃ pre post, b :: l = pre ++ pyMaxLoop b l :: post ∧
        ∀ x ∈ pre, x.efficiency < (pyMaxLoop b l).efficiency := by
  induction l with
  | nil =>
      intro b
      refine ⟨by simp [pyMaxLoop], ?_, [], [], by simp [pyMaxLoop], by simp⟩
      intro x hx
      have hxb : x = b := by simpa using hx
      subst hxb
      simp [pyMaxLoop]
  | cons x l ih =>
      intro b
      have hunfold : pyMaxLoop b (x :: l) =
          pyMaxLoop (if x.efficiency > b.efficiency then x else b) l := rfl
      by_cases hx : x.efficiency > b.efficiency
      · rw [hunfold, if_pos hx]
        obtain ⟨hmem, hbound, pre, post, hdec, hpre⟩ := ih x
        refine ⟨List.mem_cons_of_mem b hmem, ?_, b :: pre, post, by simp [hdec], ?_⟩
        · intro y hy
          rcases List.mem_cons.mp hy with rfl | hy'
          · exact le_trans (le_of_lt hx) (hbound x (List.mem_cons_self _ _))
          · exact hbound y hy'
        · intro y hy
          rcases List.mem_cons.mp hy with rfl | hy'
          · exact lt_of_lt_of_le hx (hbound x (List.mem_cons_self _ _))
          · exact hpre y hy'
      · rw [hunfold, if_neg hx]
        push_neg at hx
        obtain ⟨hmem, hbound, pre, post, hdec, hpre⟩ := ih b
        refine ⟨?_, ?_, ?_⟩
        · rcases List.mem_cons.mp hmem with heq | hm
          · rw [heq]
            exact List.mem_cons_self _ _
          · exact List.mem_cons_of_mem b (List.mem_cons_of_mem x hm)
        · intro y hy
          rcases List.mem_cons.mp hy with rfl | hy'
          · exact hbound y (List.mem_cons_self _ _)
          · rcases List.mem_cons.mp hy' with rfl | hy''
            · exact le_trans hx (hbound b (List.mem_cons_self _ _))
            · exact hbound y (List.mem_cons_of_mem b hy'')
        · cases pre with
          | nil =>
              simp only [List.nil_append, List.cons.injEq] at hdec
              obtain ⟨hb, hpost⟩ := hdec
              refine ⟨[], x :: l, ?_, by simp⟩
              simp [← hb]
          | cons p pre₂ =>
              rw [List.cons_append] at hdec
              simp only [List.cons.injEq] at hdec
              obtain ⟨hb, hl⟩ := hdec
              refine ⟨b :: x :: pre₂, post,
                by rw [List.cons_append, List.cons_append, ← hl], ?_⟩
              intro y hy
              rcases List.mem_cons.mp hy with rfl | hy'
              · have : y ∈ p :: pre₂ := by
                  rw [← hb]
                  exact List.mem_cons_self _ _
                exact hpre y this
              · rcases List.mem_cons.mp hy' with rfl | hy''
                · have hbm : b ∈ p :: pre₂ := by
                    rw [← hb]
                    exact List.mem_cons_self _ _
                  exact lt_of_le_of_lt hx (hpre b hbm)
                · exact hpre y (List.mem_cons_of_mem p hy'')

/-- C2: the dispatch tool fails with the no-capacity error dict — carrying
the recommendation string and mutating no truck — exactly when no truck is
idle; otherwise it picks, among the idle trucks, one of maximal efficiency,
earliest-position on ties (everything before it in the idle list is strictly
less efficient), and replaces exactly that truck with a copy whose status is
`en-route`, route is the planned waypoint list, and total_stops is the
waypoint count. -/
theorem dispatch_selects_best_idle (trucks : List Truck) (route : OptimizedRoute) :
    (trucks.filter (fun t => t.status = "idle") = [] →
      TruckDispatchTool.run trucks route =
        (DispatchResult.failure "No available trucks for dispatch"
          "Wait for trucks to complete current routes", trucks)) ∧
    (trucks.filter (fun t => t.status = "idle") ≠ [] →
      ∃ best pre post,
        best ∈ trucks.filter (fun t => t.status = "idle") ∧
        (∀ t ∈ trucks.filter (fun t => t.status = "idle"),
          t.efficiency ≤ best.efficiency) ∧
        trucks.filter (fun t => t.status = "idle") = pre ++ best :: post ∧
        (∀ t ∈ pre, t.efficiency < best.efficiency) ∧
        TruckDispatchTool.run trucks route =
          (DispatchResult.success best.id best.driver route.name,
           replaceFirst trucks best
             { best with
                status := "en-route"
                route := route.waypoints
                total_stops := route.waypoints.length })) := by
  constructor
  · intro h
    simp only [TruckDispatchTool.run, h]
    rfl
  · intro h
    obtain ⟨t, ts, hts⟩ := List.exists_cons_of_ne_nil h
    obtain ⟨hmem, hbound, pre, post, hdec, hpre⟩ := pyMaxLoop_spec ts t
    refine ⟨pyMaxLoop t ts, pre, post, ?_, ?_, ?_, hpre, ?_⟩
    · rw [hts]
      exact hmem
    · rw [hts]
      exact hbound
    · rw [hts]
      exact hdec
    · simp only [TruckDispatchTool.run, hts, pyMaxEff]

/-- C7 helper: an element of `replaceFirst l a b` is `b` or was in `l`. -/
lemma replaceFirst_mem (l : List Truck) (a b t : Truck)
    (ht : t ∈ replaceFirst l a b) : t = b ∨ t ∈ l := by
  induction l with
  | nil => simp [replaceFirst] at ht
  | cons x xs ih =>
      by_cases hx : x = a
      · rw [replaceFirst, if_pos hx] at ht
        rcases List.mem_cons.mp ht with rfl | ht'
        · exact Or.inl rfl
        · exact Or.inr (List.mem_cons_of_mem x ht')
      · rw [replaceFirst, if_neg hx] at ht
        rcases List.mem_cons.mp ht with rfl | ht'
        · exact Or.inr (List.mem_cons_self _ _)
        · rcases ih ht' with hb | hxs
          · exact Or.inl hb
          · exact Or.inr (List.mem_cons_of_mem x hxs)

/-- C7 helper: every element of `tickTrucks` comes from jittering some
original truck. -/
lemma tickTrucks_mem (jitter : ℕ → TruckJitter) :
    ∀ (i : ℕ) (ts : List Truck) (t : Truck), t ∈ tickTrucks jitter i ts →
      ∃ k s, s ∈ ts ∧ t = tickTruck (jitter k) s := by
  intro i ts
  induction ts generalizing i with
  | nil => intro t ht; simp [tickTrucks] at ht
  | cons s ss ih =>
      intro t ht
      rw [tickTrucks] at ht
      rcases List.mem_cons.mp ht with rfl | ht'
      · exact ⟨i, s, List.mem_cons_self _ _, rfl⟩
      · obtain ⟨k, s', hs', hteq⟩ := ih (i + 1) t ht'
        exact ⟨k, s', List.mem_cons_of_mem s hs', hteq⟩

/-- C7 helper: a tick never touches a truck's status or route. -/
lemma tickTruck_status_route (j : TruckJitter) (t : Truck) :
    (tickTruck j t).status = t.status ∧ (tickTruck j t).route = t.route := by
  unfold tickTruck
  split_ifs <;> simp

/-- C7 (amended): the invariant `status = idle ⟺ route empty` holds for the
initial fleet, is preserved by `TruckDispatchTool._run` whenever the
dispatched route has at least one waypoint, and is preserved by every
telemetry tick; the `/api/dispatch-truck` endpoint, however, violates it
(see the counterexample), so it does not hold after *every* public
operation. -/
theorem truckInv_preserved :
    (∀ t ∈ initialTrucks, truckInv t) ∧
    (∀ (trucks : List Truck) (route : OptimizedRoute),
      (∀ t ∈ trucks, truckInv t) → route.waypoints ≠ [] →
      ∀ t ∈ (TruckDispatchTool.run trucks route).2, truckInv t) ∧
    (∀ (conns : List Conn) (jitter : ℕ → TruckJitter) (deff : ℚ)
      (st : SystemState),
      (∀ t ∈ st.trucks, truckInv t) →
      ∀ t ∈ (simulateTick conns jitter deff st).trucks, truckInv t) := by
  refine ⟨by decide, ?_, ?_⟩
  · intro trucks route hinv hwp t ht
    simp only [TruckDispatchTool.run] at ht
    cases hm : pyMaxEff (trucks.filter (fun t => t.status = "idle")) with
    | none =>
        rw [hm] at ht
        exact hinv t ht
    | some best =>
        rw [hm] at ht
        simp only at ht
        rcases replaceFirst_mem _ _ _ _ ht with rfl | hmem
        · unfold truckInv
          simp
          exact hwp
        · exact hinv t hmem
  · intro conns jitter deff st hinv t ht
    simp only [simulateTick] at ht
    split at ht
    · obtain ⟨k, s, hs, rfl⟩ := tickTrucks_mem jitter 0 st.trucks t ht
      unfold truckInv
      rw [(tickTruck_status_route (jitter k) s).1,
        (tickTruck_status_route (jitter k) s).2]
      exact hinv s hs
    · exact hinv t ht

/-- C8: `optimize_route` succeeds exactly when the origin warehouse id is
known; on success it increments the global `active_routes` by exactly 1 and
sets `efficiency_score` to `min 99 (previous + 0.5)` while leaving
`fuel_saved`, `co2_reduced` and `total_distance_saved` unchanged; on failure
no metric changes. -/
theorem optimize_route_metrics (warehouses : List Warehouse)
    (m : PerformanceMetrics) (wid : ℤ) :
    ((optimize_route warehouses m wid).1 = true ↔ ∃ w ∈ warehouses, w.id = wid) ∧
    ((optimize_route warehouses m wid).1 = true →
      (optimize_route warehouses m wid).2 =
        { m with
           active_routes := m.active_routes + 1
           efficiency_score := min 99 (m.efficiency_score + 1/2) } ∧
      (optimize_route warehouses m wid).2.fuel_saved = m.fuel_saved ∧
      (optimize_route warehouses m wid).2.co2_reduced = m.co2_reduced ∧
      (optimize_route warehouses m wid).2.total_distance_saved =
        m.total_distance_saved) ∧
    ((optimize_route warehouses m wid).1 = false →
      (optimize_route warehouses m wid).2 = m) := by
  unfold optimize_route
  cases hf : warehouses.find? (fun w => w.id = wid) with
  | none =>
      refine ⟨?_, by simp, fun _ => rfl⟩
      constructor
      · intro habs
        simp at habs
      · rintro ⟨w, hw, hid⟩
        have hsome : (warehouses.find? (fun w => w.id = wid)).isSome = true :=
          List.find?_isSome.mpr ⟨w, hw, by simp [hid]⟩
        rw [hf] at hsome
        simp at hsome
  | some w =>
      refine ⟨?_, fun _ => ⟨rfl, rfl, rfl, rfl⟩, by simp⟩
      constructor
      · intro _
        exact ⟨w, List.mem_of_find?_eq_some hf, by simpa using List.find?_some hf⟩
      · intro _
        rfl

/-- C9 helper: the truck loop of one tick relates each original truck to its
jittered successor. -/
lemma tickTrucks_forall₂ (jitter : ℕ → TruckJitter)
    (hfuel : ∀ i, 0 ≤ (jitter i).dfuel) (hco2 : ∀ i, 0 ≤ (jitter i).dco2) :
    ∀ (i : ℕ) (ts : List Truck),
      List.Forall₂ (fun t t' =>
        (t.status ≠ "en-route" → t' = t) ∧
        t.fuel_saved ≤ t'.fuel_saved ∧ t.co2_reduced ≤ t'.co2_reduced)
        ts (tickTrucks jitter i ts) := by
  intro i ts
  induction ts generalizing i with
  | nil => exact List.Forall₂.nil
  | cons s ss ih =>
      rw [tickTrucks]
      refine List.Forall₂.cons ⟨?_, ?_, ?_⟩ (ih (i + 1))
      · intro hstat
        unfold tickTruck
        rw [if_neg hstat]
      · unfold tickTruck
        split_ifs
        · show s.fuel_saved ≤ s.fuel_saved + (jitter i).dfuel
          linarith [hfuel i]
        · exact le_refl _
      · unfold tickTruck
        split_ifs
        · show s.co2_reduced ≤ s.co2_reduced + (jitter i).dco2
          linarith [hco2 i]
        · exact le_refl _

/-- C9: a telemetry tick with at least one connected observer leaves every
truck whose status is not `en-route` (so `idle`, `loading`, `completed`)
entirely unchanged, never decreases any truck's `fuel_saved` or
`co2_reduced` (the draws are from `[0, 0.1]` and `[0, 0.3]`), and leaves the
global `efficiency_score` at most 99. -/
theorem tick_frame_and_monotone (conns : List Conn) (jitter : ℕ → TruckJitter)
    (deff : ℚ) (st : SystemState) (hc : conns ≠ [])
    (hfuel : ∀ i, 0 ≤ (jitter i).dfuel) (hco2 : ∀ i, 0 ≤ (jitter i).dco2) :
    tickSpec st (simulateTick conns jitter deff st) := by
  have hlen : conns.length > 0 := List.length_pos.mpr hc
  unfold simulateTick tickSpec
  rw [if_pos hlen]
  exact ⟨tickTrucks_forall₂ jitter hfuel hco2 0 st.trucks, min_le_left _ _⟩

/-- C9 witness: one live observer, in-range draws, the initial fleet. -/
theorem tick_frame_and_monotone_witness :
    tickSpec { trucks := initialTrucks, performance_metrics := initialMetrics }
      (simulateTick [⟨0, false⟩] (fun _ => ⟨1/1000, -1/1000, 1/100, 1/10⟩) (1/4)
        { trucks := initialTrucks, performance_metrics := initialMetrics }) :=
  tick_frame_and_monotone _ _ _ _ (by simp)
    (fun _ => by norm_num) (fun _ => by norm_num)

/-- C10: with an empty subscriber set the tick body is skipped entirely —
no truck position, fuel or CO2 counter, and no global metric changes. -/
theorem tick_no_subscribers_no_drift (jitter : ℕ → TruckJitter) (deff : ℚ)
    (st : SystemState) :
    simulateTick [] jitter deff st = st := by
  simp [simulateTick]

/-- C2 witness: the initial fleet (efficiencies 98.5, 97.2, 96.8, 98.0, all
idle) with a one-stop route. -/
theorem dispatch_selects_best_idle_witness :
    initialTrucks.filter (fun t => t.status = "idle") ≠ [] ∧
    (∃ best pre post,
      best ∈ initialTrucks.filter (fun t => t.status = "idle") ∧
      (∀ t ∈ initialTrucks.filter (fun t => t.status = "idle"),
        t.efficiency ≤ best.efficiency) ∧
      initialTrucks.filter (fun t => t.status = "idle") = pre ++ best :: post ∧
      (∀ t ∈ pre, t.efficiency < best.efficiency) ∧
      TruckDispatchTool.run initialTrucks sampleRoute =
        (DispatchResult.success best.id best.driver sampleRoute.name,
         replaceFirst initialTrucks best
           { best with
              status := "en-route"
              route := sampleRoute.waypoints
              total_stops := sampleRoute.waypoints.length })) :=
  ⟨by decide, (dispatch_selects_best_idle initialTrucks sampleRoute).2 (by decide)⟩

/-- C7 witness: the initial fleet satisfies the invariant and still does
after a dispatch with a one-waypoint route. -/
theorem truckInv_preserved_witness :
    (∀ t ∈ initialTrucks, truckInv t) ∧ sampleRoute.waypoints ≠ [] ∧
    (∀ t ∈ (TruckDispatchTool.run initialTrucks sampleRoute).2, truckInv t) :=
  ⟨by decide, by decide,
    truckInv_preserved.2.1 initialTrucks sampleRoute (by decide) (by decide)⟩

/-- C8 witness: dispatching from warehouse 1 out of the seeded warehouse
set, starting from the all-zero metrics. -/
theorem optimize_route_metrics_witness :
    (optimize_route initialWarehouses initialMetrics 1).1 = true ∧
    (optimize_route initialWarehouses initialMetrics 1).2 =
      { initialMetrics with
         active_routes := initialMetrics.active_routes + 1
         efficiency_score := min 99 (initialMetrics.efficiency_score + 1/2) } :=
  ⟨rfl, ((optimize_route_metrics initialWarehouses initialMetrics 1).2.1 rfl).1⟩

/-- C7 counterexample: dispatching idle truck `T001` through the
`/api/dispatch-truck` endpoint flips its status to `en-route` while leaving
its route empty, so the resulting fleet contains a truck violating
`status = idle ⟺ route empty`. -/
theorem dispatch_by_id_breaks_truckInv :
    dispatch_truck initialTrucks "T001" =
      Except.ok (dispatchedT001 :: initialTrucks.tail) ∧
    dispatchedT001.status = "en-route" ∧ dispatchedT001.route = [] ∧
    ¬ truckInv dispatchedT001 := by
  refine ⟨?_, rfl, rfl, by decide⟩
  simp [dispatch_truck, initialTrucks, replaceFirst, dispatchedT001, List.find?]

/-- C5 witness: one warehouse and one delivery, constant distance 7. -/
theorem routeOpt_waypoints_in_order_witness :
    ∃ r, RouteOptimizationTool.run (fun _ _ => 7) 100
        [{ lat := some 32, lng := some (-96), name := "Dallas DC" }]
        [{ lat := some 33, lng := some (-97), name := "Plano Store", quantity := some 45 }] =
        Except.ok r ∧
      r.waypoints =
        [{ lat := some 32, lng := some (-96), name := "Dallas DC" : WarehouseIn }].map pickupWpT ++
        [{ lat := some 33, lng := some (-97), name := "Plano Store", quantity := some 45 : DeliveryIn }].map deliveryWpT ∧
      r.distance = pathDistance (fun _ _ => 7)
        ([{ lat := some 32, lng := some (-96), name := "Dallas DC" : WarehouseIn }].map pickupWpT ++
         [{ lat := some 33, lng := some (-97), name := "Plano Store", quantity := some 45 : DeliveryIn }].map deliveryWpT) :=
  routeOpt_waypoints_in_order (fun _ _ => 7) 100 _ _ (by rfl) (by rfl)

end SupplyChain
